import Mathlib

/-!
Verification of the cloudflare-sentinel training pipeline
(`scripts/training/`): the MurmurHash3 conformance fixture
(`verify_hash.py`), the vectorizer configuration and model export
(`train_classifier.py`), dataset preparation (`prepare_dataset.py`,
`generate_safe_requests.py`), and the spec-level model-artifact codec.

Python source is shallowly embedded: byte strings become `List Nat`
(each entry < 256), unsigned 32-bit arithmetic is `Nat` with explicit
`% 2 ^ 32`, floating-point model coefficients become `ℚ` (the claims
checked here only use exact negation, which floats perform exactly),
and fallible operations return `Option`/`Except`.
-/

namespace Sentinel

/-! ## MurmurHash3 (x86, 32-bit)

`verify_hash.py` calls the external `mmh3` library:
`mmh3.hash(text, 0, signed=False)` is MurmurHash3 x86 32-bit over the
UTF-8 encoding of `text`, returning an unsigned 32-bit value.  The
algorithm is embedded below exactly as specified (4-byte little-endian
chunks, constants c1/c2, tail handling for 1-3 leftover bytes, final
avalanche), with all arithmetic reduced `% 2 ^ 32`. -/

/-- Rotate left of a 32-bit value already reduced below `2 ^ 32`. -/
def rotl32 (x r : Nat) : Nat :=
  ((x <<< r) ||| (x >>> (32 - r))) % 4294967296

/-- The per-chunk mixing of MurmurHash3: multiply by c1, rotate 15,
multiply by c2, all in unsigned 32-bit arithmetic. -/
def mixK (k : Nat) : Nat :=
  let k1 := (k * 0xcc9e2d51) % 4294967296
  let k2 := rotl32 k1 15
  (k2 * 0x1b873593) % 4294967296

/-- Little-endian value of a 1-3 byte tail. -/
def tailK : List Nat → Nat
  | [b0] => b0
  | [b0, b1] => b0 ||| (b1 <<< 8)
  | [b0, b1, b2] => b0 ||| (b1 <<< 8) ||| (b2 <<< 16)
  | _ => 0

/-- Main loop of MurmurHash3 x86/32: consume 4-byte little-endian
chunks, then xor in the mixed 1-3 byte tail. -/
def murmur3Go (h : Nat) : List Nat → Nat
  | b0 :: b1 :: b2 :: b3 :: rest =>
      let k := mixK (b0 ||| (b1 <<< 8) ||| (b2 <<< 16) ||| (b3 <<< 24))
      let h1 := rotl32 (h ^^^ k) 13
      murmur3Go ((h1 * 5 + 0xe6546b64) % 4294967296) rest
  | [] => h
  | tail => h ^^^ mixK (tailK tail)

/-- Final avalanche mixing: xor-shift and multiply steps. -/
def fmix32 (h : Nat) : Nat :=
  let h1 := h ^^^ (h >>> 16)
  let h2 := (h1 * 0x85ebca6b) % 4294967296
  let h3 := h2 ^^^ (h2 >>> 13)
  let h4 := (h3 * 0xc2b2ae35) % 4294967296
  h4 ^^^ (h4 >>> 16)

/-- MurmurHash3 x86 32-bit of a byte sequence with a seed, unsigned. -/
def murmur3_32 (bytes : List Nat) (seed : Nat) : Nat :=
  fmix32 (murmur3Go (seed % 4294967296) bytes ^^^ bytes.length)

/-- Standard UTF-8 encoding of one Unicode code point as bytes. -/
def utf8EncodeChar (c : Char) : List Nat :=
  let n := c.toNat
  if n < 0x80 then [n]
  else if n < 0x800 then
    [0xC0 ||| (n >>> 6), 0x80 ||| (n &&& 0x3F)]
  else if n < 0x10000 then
    [0xE0 ||| (n >>> 12), 0x80 ||| ((n >>> 6) &&& 0x3F), 0x80 ||| (n &&& 0x3F)]
  else
    [0xF0 ||| (n >>> 18), 0x80 ||| ((n >>> 12) &&& 0x3F),
     0x80 ||| ((n >>> 6) &&& 0x3F), 0x80 ||| (n &&& 0x3F)]

/-- UTF-8 byte encoding of a string (Python `text.encode(utf-8)`). -/
def utf8Encode (s : String) : List Nat :=
  s.data.flatMap utf8EncodeChar

/-- Python `mmh3.hash(text, seed, signed=False)`: MurmurHash3 x86/32 of the
UTF-8 bytes of `text`, as an unsigned 32-bit integer. -/
def mmh3Hash (text : String) (seed : Nat) : Nat :=
  murmur3_32 (utf8Encode text) seed

/-! ## verify_hash.py fixture -/

/-- The `test_cases` list of `verify_hash.py` (lines 23-34), verbatim. -/
def testCases : List String :=
  ["", "hello", "test", "sql", " sq", "sql", "ql ", "SELECT", "你好",
   "SELECT * FROM users WHERE id=1"]

/-- First pass of `verify_hash.main` (the TypeScript-snippet section,
lines 41-44): for each fixture text, `mmh3.hash(text, 0, signed=False)`. -/
def snippetHashes : List Nat :=
  testCases.map (fun text => mmh3Hash text 0)

/-- Second pass of `verify_hash.main` (the Raw Values section,
lines 54-58): for each fixture text, `mmh3.hash(text, 0, signed=False)`. -/
def rawValueHashes : List Nat :=
  testCases.map (fun text => mmh3Hash text 0)

/-! ## train_classifier.py: vectorizer configuration and model export -/

/-- The fields of the `VECTORIZER_CONFIG` dict of `train_classifier.py`
(lines 30-36), as an explicit structure. -/
structure HVConfig where
  n_features : Nat
  analyzer : String
  ngram_range : Nat × Nat
  alternate_sign : Bool
  norm : Option String
deriving DecidableEq

/-- The dict `VECTORIZER_CONFIG` of `train_classifier.py` (lines 30-36). -/
def VECTORIZER_CONFIG : HVConfig :=
  { n_features := 4096
    analyzer := "char_wb"
    ngram_range := (3, 5)
    alternate_sign := false
    norm := none }

/-- Embedding of `create_vectorizer` (lines 57-59): a `HashingVectorizer` built from
`VECTORIZER_CONFIG`; only the configuration it carries is modelled. -/
def create_vectorizer : HVConfig :=
  VECTORIZER_CONFIG

/-- The accumulation step of sklearn's `HashingVectorizer` on one token
(an external library; the spec fixes its semantics in section 4.3):
feature index is the 32-bit hash of the token's UTF-8 bytes modulo
`n_features`; the entry there is incremented, by `-1` instead of `+1`
when `alternate_sign` is set and the hash's sign bit is set. -/
def hvAccumulate (cfg : HVConfig) (acc : List Int) (token : String) : List Int :=
  let h := mmh3Hash token 0
  let i := h % cfg.n_features
  let v : Int := if cfg.alternate_sign ∧ 2 ^ 31 ≤ h then -1 else 1
  acc.set i (acc.getD i 0 + v)

/-- Feature vector the configured `HashingVectorizer` produces from a
token stream: a dense length-`n_features` buffer of accumulated counts. -/
def vectorizeTokens (cfg : HVConfig) (tokens : List String) : List Int :=
  tokens.foldl (hvAccumulate cfg) (List.replicate cfg.n_features 0)

/-- A fitted sklearn classifier as `export_model` reads it: the ordered
class list `classes_`, the coefficient matrix `coef_` (one row per class,
except a single row for a two-class model), and the intercept vector
`intercept_`.  Float coefficients are embedded as rationals. -/
structure Classifier where
  classes : List String
  coef : List (List ℚ)
  intercept : List ℚ

/-- The `vectorizer` sub-object of the exported JSON artifact
(`train_classifier.py` lines 111-115). -/
structure ArtifactVectorizer where
  nFeatures : Nat
  ngramRange : List Nat
  analyzer : String
deriving DecidableEq

/-- The JSON model artifact written by `export_model`
(`train_classifier.py` lines 106-116): exactly the fields `type`,
`classes`, `weights`, `bias`, `vectorizer`. -/
structure ModelArtifact where
  type : String
  classes : List String
  weights : List (List ℚ)
  bias : List ℚ
  vectorizer : ArtifactVectorizer

/-- Embedding of `export_model` (lines 85-116) up to the JSON serialization: for a
two-class model the single sklearn coefficient row `coef_[0]` and
intercept `intercept_[0]` are expanded to two rows `[-coef, +coef]` and
two scalars `[-b, +b]`; otherwise `coef_`/`intercept_` are used as is.
Python's `coef_[0]` indexing (which assumes a fitted classifier) is
embedded as `headD`; the theorems carry the fitted-shape hypotheses. -/
def export_model (clf : Classifier) (vectorizer : HVConfig) : ModelArtifact :=
  let classes := clf.classes
  let coef0 := clf.coef.headD []
  let intercept0 := clf.intercept.headD 0
  let weights :=
    if classes.length = 2 then [coef0.map (fun x => -x), coef0] else clf.coef
  let bias :=
    if classes.length = 2 then [-intercept0, intercept0] else clf.intercept
  { type := "logistic_regression"
    classes := classes
    weights := weights
    bias := bias
    vectorizer :=
      { nFeatures := vectorizer.n_features
        ngramRange := [vectorizer.ngram_range.1, vectorizer.ngram_range.2]
        analyzer := vectorizer.analyzer } }

/-! ## prepare_dataset.py and generate_safe_requests.py -/

/-- Python `str.isspace` on the characters `str.strip()` removes:
space, tab, newline, carriage return, vertical tab, form feed. -/
def pyIsSpace (c : Char) : Bool :=
  c = ' ' || c = '\t' || c = '\n' || c = '\r' || c = '\x0b' || c = '\x0c'

/-- Python `line.strip()`: drop leading and trailing whitespace. -/
def pyStrip (cs : List Char) : List Char :=
  ((cs.dropWhile pyIsSpace).reverse.dropWhile pyIsSpace).reverse

/-- Python `line.startswith(str-of-hash)`. -/
def startsWithHash : List Char → Bool
  | [] => false
  | c :: _ => c = '#'

/-- Embedding of `load_samples` of `prepare_dataset.py` (lines 35-44): per input line,
strip it, and keep it unless it is empty or starts with a hash mark.
The file is embedded as its list of lines. -/
def load_samples : List (List Char) → List (List Char)
  | [] => []
  | line :: rest =>
      let l := pyStrip line
      if l = [] then load_samples rest
      else if startsWithHash l then load_samples rest
      else l :: load_samples rest

/-- The lines of the sample file written by `generate_safe_requests.main`
(lines 145-149): two hash-mark header lines, one blank line (from the
double newline), then one line per generated request. -/
def safeRequestsFileLines (total : Nat) (requests : List (List Char)) :
    List (List Char) :=
  "# Auto-generated safe requests".data ::
    ("# Total: ".data ++ (toString total).data) :: [] :: requests

/-- The list `REQUEST_TEMPLATES` of `prepare_dataset.py` (lines 21-32). -/
def REQUEST_TEMPLATES : List String :=
  ["GET /api/users?id={payload}",
   "GET /api/search?q={payload}",
   "GET /api/products?filter={payload}",
   "POST /api/login username={payload}&password=test",
   "POST /api/data query={payload}",
   "GET /page?file={payload}",
   "GET /api/fetch?url={payload}",
   "GET /api/items?sort={payload}",
   "POST /api/comment body={payload}",
   "GET /download?path={payload}"]

/-- Python `template.format(payload=payload)` restricted to the
`REQUEST_TEMPLATES` shapes: every occurrence of the 9-character
placeholder field is replaced by the payload. -/
def formatPayload (cs p : List Char) : List Char :=
  match cs with
  | [] => []
  | c :: rest =>
      if (c :: rest).take 9 = "\x7bpayload\x7d".data then
        p ++ formatPayload (rest.drop 8) p
      else
        c :: formatPayload rest p
termination_by cs.length
decreasing_by
  · simp only [List.length_drop, List.length_cons]
    omega
  · simp only [List.length_cons]
    omega

/-- Embedding of `inject_into_template` (lines 47-50): substitute the payload into
one of the ten request templates.  `random.choice(REQUEST_TEMPLATES)` is
modelled by an oracle index, reduced modulo the list length so every
oracle value selects an actual template. -/
def inject_into_template (choice : Nat) (payload : String) : String :=
  let template := REQUEST_TEMPLATES.getD (choice % REQUEST_TEMPLATES.length) ""
  ⟨formatPayload template.data payload.data⟩

/-- One line of the training dataset: the JSON object
`\x7b"text": ..., "label": ...\x7d` written by `prepare_dataset.main`
and read back by `load_dataset`. -/
structure TrainRecord where
  text : String
  label : String
deriving DecidableEq

/-- The per-sample body of `prepare_dataset.main` (lines 69-80): a safe
label or the `--raw` flag keeps the sample verbatim; otherwise the
sample is injected into a template chosen by the randomness oracle. -/
def makeRecord (raw : Bool) (label sample : String) (choice : Nat) :
    TrainRecord :=
  if label = "safe" ∨ raw = true then { text := sample, label := label }
  else { text := inject_into_template choice sample, label := label }

/-- The per-file loop body of `prepare_dataset.main` (lines 65-82) for
one `.txt` file: `stem` is the file name without extension (the label),
`lines` the file's lines, and `pick` the oracle giving `random.choice`'s
pick for each sample position. -/
def processSamplesFrom (raw : Bool) (stem : String) (pick : Nat → Nat) :
    Nat → List (List Char) → List TrainRecord
  | _, [] => []
  | i, s :: rest =>
      makeRecord raw stem ⟨s⟩ (pick i) :: processSamplesFrom raw stem pick (i + 1) rest

/-- Records `prepare_dataset.main` builds from one sample file. -/
def processFile (raw : Bool) (stem : String) (lines : List (List Char))
    (pick : Nat → Nat) : List TrainRecord :=
  processSamplesFrom raw stem pick 0 (load_samples lines)

/-! ## The JSONL record stream

`prepare_dataset.main` (lines 87-90) writes each record with
`json.dumps(sample, ensure_ascii=False)` on its own line, and
`load_dataset` of `train_classifier.py` (lines 39-54) reads it back with
`json.loads` per non-blank line.  The Python `json` codec is embedded on
the record shape it is used at: `json.dumps` of a two-key dict of
strings with its default separators, and `json.loads` of such a line.
Files are embedded as lists of lines (without the newline terminators;
`json.loads` ignores the surrounding whitespace the real line carries). -/

/-- Lowercase hex digit, as produced by Python's `%04x` formatting. -/
def hexDigit (n : Nat) : Char :=
  "0123456789abcdef".data.getD n '0'

/-- Python `json.dumps` escaping of one character with `ensure_ascii=False`:
quote, backslash and the named control shortcuts get two-character
escapes, any other control character below `0x20` gets a `u`-escape,
everything else is passed through. -/
def escapeJsonChar (c : Char) : List Char :=
  if c = '"' then ['\\', '"']
  else if c = '\\' then ['\\', '\\']
  else if c = '\n' then ['\\', 'n']
  else if c = '\t' then ['\\', 't']
  else if c = '\r' then ['\\', 'r']
  else if c = '\x08' then ['\\', 'b']
  else if c = '\x0c' then ['\\', 'f']
  else if c.toNat < 0x20 then
    ['\\', 'u', '0', '0', hexDigit (c.toNat / 16), hexDigit (c.toNat % 16)]
  else [c]

/-- Python `json.dumps` body of a string value (between the quotes). -/
def escapeJsonString (cs : List Char) : List Char :=
  cs.flatMap escapeJsonChar

/-- The line `json.dumps(sample, ensure_ascii=False)` writes for one
record: keys in dict insertion order (`text` then `label`), default
separators. -/
def encodeRecordLine (r : TrainRecord) : List Char :=
  "\x7b\"text\": \"".data ++ escapeJsonString r.text.data ++
    "\", \"label\": \"".data ++ escapeJsonString r.label.data ++ "\"\x7d".data

/-- Value of one hex digit as `json.loads` reads it. -/
def decodeHexDigit (c : Char) : Option Nat :=
  if '0' ≤ c ∧ c ≤ '9' then some (c.toNat - '0'.toNat)
  else if 'a' ≤ c ∧ c ≤ 'f' then some (c.toNat - 'a'.toNat + 10)
  else if 'A' ≤ c ∧ c ≤ 'F' then some (c.toNat - 'A'.toNat + 10)
  else none

/-- The two-character escapes `json.loads` accepts. -/
def unescapeSimple (c : Char) : Option Char :=
  if c = '"' then some '"'
  else if c = '\\' then some '\\'
  else if c = '/' then some '/'
  else if c = 'b' then some '\x08'
  else if c = 'f' then some '\x0c'
  else if c = 'n' then some '\n'
  else if c = 'r' then some '\r'
  else if c = 't' then some '\t'
  else none

/-- Python `json.loads` string scanning after the opening quote: literal
characters up to the closing quote, with backslash escapes (two-character
ones and `u` followed by four hex digits).  Returns the decoded string
and the rest of the input, or `none` where Python raises. -/
def parseStringBody : List Char → Option (List Char × List Char)
  | [] => none
  | c :: rest =>
      if c = '"' then some ([], rest)
      else if c = '\\' then
        match rest with
        | 'u' :: h1 :: h2 :: h3 :: h4 :: rest2 =>
            match decodeHexDigit h1, decodeHexDigit h2,
                decodeHexDigit h3, decodeHexDigit h4 with
            | some a, some b, some c3, some d =>
                match parseStringBody rest2 with
                | some (s, r) =>
                    some (Char.ofNat (((a * 16 + b) * 16 + c3) * 16 + d) :: s, r)
                | none => none
            | _, _, _, _ => none
        | e :: rest2 =>
            match unescapeSimple e with
            | some c2 =>
                match parseStringBody rest2 with
                | some (s, r) => some (c2 :: s, r)
                | none => none
            | none => none
        | [] => none
      else
        match parseStringBody rest with
        | some (s, r) => some (c :: s, r)
        | none => none

/-- Consume an expected literal piece of input. -/
def parseExact (pat cs : List Char) : Option (List Char) :=
  if cs.take pat.length = pat then some (cs.drop pat.length) else none

/-- Python `json.loads` of one dataset line, at the record shape
`prepare_dataset.main` writes: an object with string values under the
keys `text` then `label`. -/
def parseRecordLine (cs : List Char) : Option TrainRecord :=
  match parseExact "\x7b\"text\": \"".data cs with
  | none => none
  | some r1 =>
      match parseStringBody r1 with
      | none => none
      | some (t, r2) =>
          match parseExact ", \"label\": \"".data r2 with
          | none => none
          | some r3 =>
              match parseStringBody r3 with
              | none => none
              | some (l, r4) =>
                  if r4 = "\x7d".data then some { text := ⟨t⟩, label := ⟨l⟩ }
                  else none

/-- The dataset file `prepare_dataset.main` writes (lines 87-90): one
encoded record per line. -/
def writeDatasetLines (records : List TrainRecord) : List (List Char) :=
  records.map encodeRecordLine

/-- Embedding of `load_dataset` of `train_classifier.py` (lines 39-54): skip blank
lines, parse each remaining line as a record, and accumulate the `text`
and `label` fields in file order.  A line `json.loads` rejects makes the
whole load fail (`none`), as the Python exception would. -/
def load_dataset : List (List Char) → Option (List String × List String)
  | [] => some ([], [])
  | line :: rest =>
      if pyStrip line = [] then load_dataset rest
      else
        match parseRecordLine line with
        | none => none
        | some r =>
            match load_dataset rest with
            | none => none
            | some (ts, ls) => some (r.text :: ts, r.label :: ls)

/-! ## The inference-side model codec -/

/-- Modelled from the spec: the load-time failures of the inference
engine's model codec (spec sections 4.5 and 7); the engine itself is the
repository's TypeScript ML module, which is not under `src/`. -/
inductive LoadError where
  | configMismatch : LoadError
  | modelLoad : LoadError
deriving DecidableEq

/-- Modelled from the spec: the inference engine's compiled-in vectorizer
configuration (spec section 4.5: `n_features` 4096, `ngram_range` (3,5),
`char_wb` analyzer semantics), in the artifact's field layout. -/
def compiledVectorizerConfig : ArtifactVectorizer :=
  { nFeatures := 4096, ngramRange := [3, 5], analyzer := "char_wb" }

/-- Modelled from the spec: artifact deserialization (spec sections 4.5
and 7; the TypeScript loader is not under `src/`).  The artifact's
`vectorizer` must equal the engine's compiled-in configuration exactly —
any mismatch is `ConfigMismatchError`, raised before the artifact is
inspected further and with no fallback result; a well-matched artifact
is then shape-validated (`ModelLoadError`) and returned unchanged. -/
def loadModel (engine : ArtifactVectorizer) (a : ModelArtifact) :
    Except LoadError ModelArtifact :=
  if a.vectorizer.nFeatures = engine.nFeatures ∧
      a.vectorizer.ngramRange = engine.ngramRange ∧
      a.vectorizer.analyzer = engine.analyzer then
    if a.type = "logistic_regression" ∧
        a.weights.length = a.classes.length ∧
        a.bias.length = a.classes.length ∧
        (∀ row ∈ a.weights, row.length = engine.nFeatures) then
      Except.ok a
    else Except.error LoadError.modelLoad
  else Except.error LoadError.configMismatch

/-! ## Theorems -/

/-- Claim C1: for a two-class model (`len(classes) == 2`, a single
sklearn coefficient row and intercept), `export_model` writes exactly
two weight rows `[-coef, +coef]` and two bias scalars `[-b, +b]`, so
`weights[1]` is the element-wise negation of `weights[0]` and
`bias[1] = -bias[0]`. -/
theorem claim_C1 (clf : Classifier) (vec : HVConfig) (c : List ℚ) (b : ℚ)
    (h2 : clf.classes.length = 2) (hc : clf.coef = [c])
    (hb : clf.intercept = [b]) :
    (export_model clf vec).weights = [c.map (fun x => -x), c] ∧
    (export_model clf vec).bias = [-b, b] ∧
    (export_model clf vec).weights.length = 2 ∧
    (export_model clf vec).bias.length = 2 ∧
    (export_model clf vec).weights.getD 1 [] =
      ((export_model clf vec).weights.getD 0 []).map (fun x => -x) ∧
    (export_model clf vec).bias.getD 1 0 =
      -((export_model clf vec).bias.getD 0 0) := by
  simp [export_model, h2, hc, hb, List.map_map, Function.comp]

/-- Witness for claim C1 at a concrete two-class fitted classifier. -/
theorem claim_C1_witness :
    (export_model
        { classes := ["safe", "suspicious"], coef := [[1, -2, 0]],
          intercept := [3] } create_vectorizer).weights =
      [[1, -2, 0].map (fun x => -x), [1, -2, 0]] ∧
    (export_model
        { classes := ["safe", "suspicious"], coef := [[1, -2, 0]],
          intercept := [3] } create_vectorizer).bias = [-3, 3] ∧
    (export_model
        { classes := ["safe", "suspicious"], coef := [[1, -2, 0]],
          intercept := [3] } create_vectorizer).weights.length = 2 ∧
    (export_model
        { classes := ["safe", "suspicious"], coef := [[1, -2, 0]],
          intercept := [3] } create_vectorizer).bias.length = 2 ∧
    (export_model
        { classes := ["safe", "suspicious"], coef := [[1, -2, 0]],
          intercept := [3] } create_vectorizer).weights.getD 1 [] =
      ((export_model
          { classes := ["safe", "suspicious"], coef := [[1, -2, 0]],
            intercept := [3] } create_vectorizer).weights.getD 0 []).map
        (fun x => -x) ∧
    (export_model
        { classes := ["safe", "suspicious"], coef := [[1, -2, 0]],
          intercept := [3] } create_vectorizer).bias.getD 1 0 =
      -((export_model
          { classes := ["safe", "suspicious"], coef := [[1, -2, 0]],
            intercept := [3] } create_vectorizer).bias.getD 0 0) :=
  claim_C1 _ create_vectorizer [1, -2, 0] 3 rfl rfl rfl

/-- Claim C2: every artifact `export_model` writes carries exactly the
fields `type` (the string literal), `classes`, `weights`, `bias` and
`vectorizer` (witnessed by the `ModelArtifact`/`ArtifactVectorizer`
structures), and with the training vectorizer of `create_vectorizer` the
echoed configuration is `nFeatures = 4096`, `ngramRange = [3, 5]`,
`analyzer = "char_wb"`. -/
theorem claim_C2 (clf : Classifier) :
    (export_model clf create_vectorizer).type = "logistic_regression" ∧
    (export_model clf create_vectorizer).classes = clf.classes ∧
    (export_model clf create_vectorizer).vectorizer.nFeatures =
      VECTORIZER_CONFIG.n_features ∧
    (export_model clf create_vectorizer).vectorizer.nFeatures = 4096 ∧
    (export_model clf create_vectorizer).vectorizer.ngramRange = [3, 5] ∧
    (export_model clf create_vectorizer).vectorizer.analyzer = "char_wb" ∧
    (export_model clf create_vectorizer).vectorizer =
      { nFeatures := 4096, ngramRange := [3, 5], analyzer := "char_wb" } :=
  ⟨rfl, rfl, rfl, rfl, rfl, rfl, rfl⟩

/-- Claim C3: an exported artifact satisfies
`len(weights) == len(bias) == len(classes)` and every weight row has
length 4096, given the fitted shapes of the sklearn classifier: one
coefficient row and one intercept in the two-class case, one of each per
class otherwise, all rows of length `n_features`. -/
theorem claim_C3 (clf : Classifier) (vec : HVConfig)
    (hrows : ∀ row ∈ clf.coef, row.length = 4096)
    (hshape :
      (clf.classes.length = 2 ∧ clf.coef.length = 1 ∧
        clf.intercept.length = 1) ∨
      (clf.classes.length ≠ 2 ∧ clf.coef.length = clf.classes.length ∧
        clf.intercept.length = clf.classes.length)) :
    (export_model clf vec).weights.length =
      (export_model clf vec).classes.length ∧
    (export_model clf vec).bias.length =
      (export_model clf vec).classes.length ∧
    ∀ row ∈ (export_model clf vec).weights, row.length = 4096 := by
  rcases hshape with ⟨h2, hc1, _⟩ | ⟨h2, hc, hi⟩
  · obtain ⟨c, hc⟩ := List.length_eq_one.mp hc1
    have hcl : c.length = 4096 := hrows c (by simp [hc])
    refine ⟨?_, ?_, ?_⟩ <;> simp [export_model, h2, hc, hcl]
  · refine ⟨?_, ?_, ?_⟩
    · simp [export_model, h2, hc]
    · simp [export_model, h2, hi]
    · simpa [export_model, h2] using hrows

/-- Witness for claim C3 at a concrete three-class fitted classifier. -/
theorem claim_C3_witness :
    (export_model
        { classes := ["safe", "sqli", "xss"],
          coef :=
            [List.replicate 4096 1, List.replicate 4096 2,
             List.replicate 4096 3],
          intercept := [1, 2, 3] } create_vectorizer).weights.length =
      (export_model
          { classes := ["safe", "sqli", "xss"],
            coef :=
              [List.replicate 4096 1, List.replicate 4096 2,
               List.replicate 4096 3],
            intercept := [1, 2, 3] } create_vectorizer).classes.length ∧
    (export_model
        { classes := ["safe", "sqli", "xss"],
          coef :=
            [List.replicate 4096 1, List.replicate 4096 2,
             List.replicate 4096 3],
          intercept := [1, 2, 3] } create_vectorizer).bias.length =
      (export_model
          { classes := ["safe", "sqli", "xss"],
            coef :=
              [List.replicate 4096 1, List.replicate 4096 2,
               List.replicate 4096 3],
            intercept := [1, 2, 3] } create_vectorizer).classes.length ∧
    ∀ row ∈
        (export_model
            { classes := ["safe", "sqli", "xss"],
              coef :=
                [List.replicate 4096 1, List.replicate 4096 2,
                 List.replicate 4096 3],
              intercept := [1, 2, 3] } create_vectorizer).weights,
      row.length = 4096 :=
  claim_C3 _ create_vectorizer
    (by
      intro row hrow
      simp only [List.mem_cons, List.not_mem_nil, or_false] at hrow
      rcases hrow with rfl | rfl | rfl <;> exact List.length_replicate _ _)
    (Or.inr ⟨by decide, rfl, rfl⟩)

/-- Setting an entry to its own value plus one raises a list sum by one. -/
theorem sum_set_getD_add_one (l : List Int) (i : Nat) (h : i < l.length) :
    (l.set i (l.getD i 0 + 1)).sum = l.sum + 1 := by
  induction l generalizing i with
  | nil => simp at h
  | cons a t ih =>
      cases i with
      | zero => simp [List.getD]; omega
      | succ n =>
          have hn : n < t.length := by simpa using h
          simp only [List.getD, List.set, List.sum_cons, List.get?_cons_succ]
          have := ih n hn
          simp only [List.getD] at this
          omega

/-- The map `hvAccumulate` never changes the buffer length. -/
theorem len_hvAccumulate (cfg : HVConfig) (acc : List Int) (t : String) :
    (hvAccumulate cfg acc t).length = acc.length := by
  simp [hvAccumulate]

/-- With the training configuration (no sign alternation), accumulating
one token adds exactly one to the buffer's total count. -/
theorem sum_hvAccumulate_noalt (acc : List Int) (t : String)
    (hlen : acc.length = 4096) :
    (hvAccumulate create_vectorizer acc t).sum = acc.sum + 1 := by
  have hi : mmh3Hash t 0 % 4096 < acc.length := by
    rw [hlen]; exact Nat.mod_lt _ (by norm_num)
  simpa [hvAccumulate, create_vectorizer, VECTORIZER_CONFIG] using
    sum_set_getD_add_one acc (mmh3Hash t 0 % 4096) hi

/-- Folding `hvAccumulate` over a token stream with the training
configuration adds the token count to the buffer's total. -/
theorem sum_vectorize_go (tokens : List String) :
    ∀ acc : List Int, acc.length = 4096 →
      (tokens.foldl (hvAccumulate create_vectorizer) acc).sum =
        acc.sum + tokens.length := by
  induction tokens with
  | nil => intro acc _; simp
  | cons t ts ih =>
      intro acc hlen
      rw [List.foldl_cons, ih _ (by rw [len_hvAccumulate, hlen]),
        sum_hvAccumulate_noalt _ _ hlen]
      simp only [List.length_cons]
      push_cast
      ring

/-- With the training configuration every buffer entry stays
non-negative: collisions only ever add. -/
theorem nonneg_vectorize_go (tokens : List String) :
    ∀ acc : List Int, acc.length = 4096 → (∀ x ∈ acc, 0 ≤ x) →
      ∀ x ∈ tokens.foldl (hvAccumulate create_vectorizer) acc, 0 ≤ x := by
  induction tokens with
  | nil => intro acc _ hpos; simpa using hpos
  | cons t ts ih =>
      intro acc hlen hpos
      refine ih _ (by rw [len_hvAccumulate, hlen]) ?_
      intro x hx
      simp only [hvAccumulate, create_vectorizer, VECTORIZER_CONFIG,
        Bool.false_eq_true, false_and, if_false] at hx
      rcases List.mem_or_eq_of_mem_set hx with hmem | heq
      · exact hpos x hmem
      · have hi : mmh3Hash t 0 % 4096 < acc.length := by
          rw [hlen]; exact Nat.mod_lt _ (by norm_num)
        have h0 : 0 ≤ acc.getD (mmh3Hash t 0 % 4096) 0 := by
          rw [List.getD_eq_getElem acc 0 hi]
          exact hpos _ (List.getElem_mem hi)
        omega

/-- Claim C4: the training vectorizer configuration fixes
`alternate_sign = False` and `norm = None` alongside `n_features = 4096`,
`analyzer = "char_wb"`, `ngram_range = (3, 5)`, and under it the
vectorizer's output is raw unnormalized term-frequency counts: the
entries are non-negative and sum to the token count, so every hash
collision adds and never subtracts. -/
theorem claim_C4 :
    VECTORIZER_CONFIG.alternate_sign = false ∧
    VECTORIZER_CONFIG.norm = none ∧
    VECTORIZER_CONFIG.n_features = 4096 ∧
    VECTORIZER_CONFIG.analyzer = "char_wb" ∧
    VECTORIZER_CONFIG.ngram_range = (3, 5) ∧
    create_vectorizer = VECTORIZER_CONFIG ∧
    (∀ tokens : List String,
        (vectorizeTokens create_vectorizer tokens).sum = tokens.length) ∧
    (∀ tokens : List String,
        ∀ x ∈ vectorizeTokens create_vectorizer tokens, 0 ≤ x) := by
  refine ⟨rfl, rfl, rfl, rfl, rfl, rfl, ?_, ?_⟩
  · intro tokens
    rw [vectorizeTokens,
      sum_vectorize_go tokens _ (by rw [List.length_replicate]; rfl)]
    simp only [List.sum_replicate, smul_zero, zero_add]
  · intro tokens
    exact nonneg_vectorize_go tokens _ (by rw [List.length_replicate]; rfl)
      (fun x hx => by rw [List.eq_of_mem_replicate hx])

/-- Claim C5: the conformance fixture of `verify_hash.py` hashes every
test case with seed 0 under the unsigned 32-bit hash, and the test-case
list contains the empty string, a single-word ASCII string, strings with
a leading and with a trailing padding space, and a multi-byte Unicode
string hashed via its UTF-8 byte encoding. -/
theorem claim_C5 :
    snippetHashes = testCases.map (fun text => mmh3Hash text 0) ∧
    (∀ h ∈ snippetHashes, h < 2 ^ 32) ∧
    ("" ∈ testCases ∧ "".data = []) ∧
    ("hello" ∈ testCases ∧
      "hello".data.all (fun c => decide (c.toNat < 128) && !pyIsSpace c) = true) ∧
    (" sq" ∈ testCases ∧ " sq".data.headD 'x' = ' ') ∧
    ("ql " ∈ testCases ∧ "ql ".data.getLastD 'x' = ' ') ∧
    ("你好" ∈ testCases ∧
      "你好".data.all (fun c => decide (127 < c.toNat)) = true ∧
      utf8Encode "你好" = [228, 189, 160, 229, 165, 189] ∧
      mmh3Hash "你好" 0 = murmur3_32 (utf8Encode "你好") 0) := by
  decide

/-- Claim C6: for every fixture text, the hash computed in the first
pass of `verify_hash.main` (the TypeScript-snippet section) equals the
hash computed in the second pass (the Raw Values section) — both are
`mmh3.hash(text, 0, signed=False)` on the same input — and both passes
produce this literal value list. -/
theorem claim_C6 :
    snippetHashes = rawValueHashes ∧
    snippetHashes =
      [0, 613153351, 3127628307, 2514321228, 3794800883, 2514321228,
       1186258580, 2909082636, 337357348, 2241426345] ∧
    rawValueHashes =
      [0, 613153351, 3127628307, 2514321228, 3794800883, 2514321228,
       1186258580, 2909082636, 337357348, 2241426345] := by
  refine ⟨rfl, ?_, ?_⟩ <;> decide

/-- Claim C7: loading an artifact whose vectorizer configuration
disagrees with the engine's compiled-in configuration (for instance
`nFeatures` 2048 against an engine compiled for 4096) fails with
`ConfigMismatchError` at load time and never yields a model. -/
theorem claim_C7 (a : ModelArtifact)
    (h : ¬(a.vectorizer.nFeatures = compiledVectorizerConfig.nFeatures ∧
        a.vectorizer.ngramRange = compiledVectorizerConfig.ngramRange ∧
        a.vectorizer.analyzer = compiledVectorizerConfig.analyzer)) :
    loadModel compiledVectorizerConfig a =
      Except.error LoadError.configMismatch ∧
    ∀ m : ModelArtifact, loadModel compiledVectorizerConfig a ≠ Except.ok m := by
  refine ⟨?_, ?_⟩
  · simp [loadModel, h]
  · intro m
    simp [loadModel, h]

/-- Witness for claim C7: a concrete artifact declaring `nFeatures` 2048
is rejected by the engine compiled for 4096. -/
theorem claim_C7_witness :
    loadModel compiledVectorizerConfig
        { type := "logistic_regression", classes := ["safe", "sqli"],
          weights := [[], []], bias := [0, 0],
          vectorizer :=
            { nFeatures := 2048, ngramRange := [3, 5],
              analyzer := "char_wb" } } =
      Except.error LoadError.configMismatch ∧
    ∀ m : ModelArtifact,
      loadModel compiledVectorizerConfig
          { type := "logistic_regression", classes := ["safe", "sqli"],
            weights := [[], []], bias := [0, 0],
            vectorizer :=
              { nFeatures := 2048, ngramRange := [3, 5],
                analyzer := "char_wb" } } ≠
        Except.ok m :=
  claim_C7 _ (by decide)

/-- Stripping a line that starts with a non-whitespace character keeps
that character in front. -/
theorem pyStrip_cons_of_neg (c : Char) (cs : List Char)
    (h : ¬ pyIsSpace c = true) :
    pyStrip (c :: cs) = c :: (cs.reverse.dropWhile pyIsSpace).reverse := by
  have h' : pyIsSpace c = false := by simpa using h
  simp only [pyStrip, List.dropWhile_cons, h', Bool.false_eq_true, if_false,
    List.reverse_cons, List.dropWhile_append]
  by_cases he : (cs.reverse.dropWhile pyIsSpace).isEmpty
  · rw [if_pos he]
    rw [List.isEmpty_iff] at he
    simp [he, List.dropWhile_cons, h]
  · rw [if_neg he]
    simp

/-- A line whose stripped form starts with a hash mark is skipped. -/
theorem load_samples_cons_hash (cs : List Char) (rest : List (List Char)) :
    load_samples (('#' :: cs) :: rest) = load_samples rest := by
  have h := pyStrip_cons_of_neg '#' cs (by decide)
  simp [load_samples, h, startsWithHash]

/-- A blank line is skipped. -/
theorem load_samples_cons_nil (rest : List (List Char)) :
    load_samples ([] :: rest) = load_samples rest := by
  simp [load_samples, pyStrip]

/-- Claim C9: `load_samples` returns exactly the stripped lines that are
non-empty and do not start with a hash mark, in file order; hence the
hash-mark header lines (and the blank line) that
`generate_safe_requests.main` writes at the top of its output are never
loaded as samples. -/
theorem claim_C9 :
    (∀ lines : List (List Char),
        load_samples lines =
          (lines.map pyStrip).filter
            (fun l => !l.isEmpty && !startsWithHash l)) ∧
    (∀ (total : Nat) (requests : List (List Char)),
        load_samples (safeRequestsFileLines total requests) =
          load_samples requests) := by
  constructor
  · intro lines
    induction lines with
    | nil => rfl
    | cons line rest ih =>
        simp only [load_samples, List.map_cons, List.filter_cons]
        by_cases h1 : pyStrip line = []
        · simp [h1, ih]
        · by_cases h2 : startsWithHash (pyStrip line)
          · simp [h1, h2, ih]
          · simp [h1, h2, ih, List.isEmpty_iff]
  · intro total requests
    have e1 : ("# Auto-generated safe requests" : String).data =
        '#' :: (" Auto-generated safe requests" : String).data := rfl
    have e2 : ("# Total: " : String).data ++ (toString total).data =
        '#' :: ((" Total: " : String).data ++ (toString total).data) := rfl
    rw [safeRequestsFileLines, e1, e2, load_samples_cons_hash,
      load_samples_cons_hash, load_samples_cons_nil]

/-- The loop `processSamplesFrom` keeps one record per sample. -/
theorem processSamplesFrom_length (raw : Bool) (stem : String)
    (pick : Nat → Nat) :
    ∀ (i0 : Nat) (samples : List (List Char)),
      (processSamplesFrom raw stem pick i0 samples).length =
        samples.length := by
  intro i0 samples
  induction samples generalizing i0 with
  | nil => rfl
  | cons s rest ih => simp [processSamplesFrom, ih]

/-- The record built for the sample at position `i` comes from that
sample and the oracle value at its position. -/
theorem processSamplesFrom_getD (raw : Bool) (stem : String)
    (pick : Nat → Nat) :
    ∀ (samples : List (List Char)) (i0 i : Nat), i < samples.length →
      (processSamplesFrom raw stem pick i0 samples).getD i
          { text := "", label := "" } =
        makeRecord raw stem ⟨samples.getD i []⟩ (pick (i0 + i)) := by
  intro samples
  induction samples with
  | nil => intro i0 i hi; simp at hi
  | cons s rest ih =>
      intro i0 i hi
      cases i with
      | zero => simp [processSamplesFrom, List.getD]
      | succ n =>
          have hn : n < rest.length := by simpa using hi
          have harg : i0 + 1 + n = i0 + (n + 1) := by omega
          simp only [processSamplesFrom, List.getD_cons_succ]
          rw [ih (i0 + 1) n hn, harg]

/-- Claim C10: each record `prepare_dataset.main` builds from a sample
file carries the file's stem as its label; with the `safe` stem or the
`--raw` flag the text is the sample line verbatim, and otherwise it is
the sample substituted for the payload field of one of the ten
`REQUEST_TEMPLATES`. -/
theorem claim_C10 (raw : Bool) (stem : String) (lines : List (List Char))
    (pick : Nat → Nat) (i : Nat) (hi : i < (load_samples lines).length) :
    (processFile raw stem lines pick).length =
      (load_samples lines).length ∧
    ((processFile raw stem lines pick).getD i
        { text := "", label := "" }).label = stem ∧
    ((stem = "safe" ∨ raw = true) →
      ((processFile raw stem lines pick).getD i
          { text := "", label := "" }).text =
        ⟨(load_samples lines).getD i []⟩) ∧
    (¬(stem = "safe" ∨ raw = true) →
      ∃ j, j < 10 ∧
        ((processFile raw stem lines pick).getD i
            { text := "", label := "" }).text =
          ⟨formatPayload (REQUEST_TEMPLATES.getD j "").data
            ((load_samples lines).getD i [])⟩) := by
  have hg := processSamplesFrom_getD raw stem pick (load_samples lines) 0 i hi
  rw [Nat.zero_add] at hg
  refine ⟨processSamplesFrom_length raw stem pick 0 _, ?_, ?_, ?_⟩
  · rw [processFile, hg]
    by_cases hb : stem = "safe" ∨ raw = true
    · simp [makeRecord, hb]
    · simp [makeRecord, hb]
  · intro hb
    rw [processFile, hg]
    simp [makeRecord, hb]
  · intro hb
    rw [processFile, hg]
    refine ⟨pick i % 10, Nat.mod_lt _ (by norm_num), ?_⟩
    simp [makeRecord, hb, inject_into_template, REQUEST_TEMPLATES]

/-- Witness for claim C10 at a concrete attack-sample file. -/
theorem claim_C10_witness :
    0 < (load_samples [("p1" : String).data]).length ∧
    ((processFile false "sqli" [("p1" : String).data] (fun _ => 3)).length =
        (load_samples [("p1" : String).data]).length ∧
      ((processFile false "sqli" [("p1" : String).data] (fun _ => 3)).getD 0
          { text := "", label := "" }).label = "sqli" ∧
      (("sqli" = "safe" ∨ false = true) →
        ((processFile false "sqli" [("p1" : String).data]
            (fun _ => 3)).getD 0 { text := "", label := "" }).text =
          ⟨(load_samples [("p1" : String).data]).getD 0 []⟩) ∧
      (¬("sqli" = "safe" ∨ false = true) →
        ∃ j, j < 10 ∧
          ((processFile false "sqli" [("p1" : String).data]
              (fun _ => 3)).getD 0 { text := "", label := "" }).text =
            ⟨formatPayload (REQUEST_TEMPLATES.getD j "").data
              ((load_samples [("p1" : String).data]).getD 0 [])⟩)) :=
  ⟨by decide,
    claim_C10 false "sqli" [("p1" : String).data] (fun _ => 3) 0 (by decide)⟩

/-- The reader `parseExact` consumes exactly the expected literal piece. -/
theorem parseExact_append (pat rest : List Char) :
    parseExact pat (pat ++ rest) = some rest := by
  simp [parseExact, List.take_left, List.drop_left]

/-- Decoding inverts the hex-digit table on digit values. -/
theorem decodeHexDigit_hexDigit :
    ∀ m < 16, decodeHexDigit (hexDigit m) = some m := by
  decide

/-- Unfolding step: the escaped stream of a cons. -/
theorem escapeJsonString_cons (c : Char) (cs : List Char) :
    escapeJsonString (c :: cs) = escapeJsonChar c ++ escapeJsonString cs := rfl

/-- Parser step: closing quote. -/
theorem psbQuote (r : List Char) : parseStringBody ('"' :: r) = some ([], r) := by
  unfold parseStringBody
  rfl

/-- Parser step: escaped quote. -/
theorem psbEscQuote (r : List Char) :
    parseStringBody ('\\' :: '"' :: r) =
      match parseStringBody r with
      | some (s, t) => some ('"' :: s, t)
      | none => none := rfl

/-- Parser step: escaped backslash. -/
theorem psbEscBackslash (r : List Char) :
    parseStringBody ('\\' :: '\\' :: r) =
      match parseStringBody r with
      | some (s, t) => some ('\\' :: s, t)
      | none => none := rfl

/-- Parser step: escaped newline. -/
theorem psbEscN (r : List Char) :
    parseStringBody ('\\' :: 'n' :: r) =
      match parseStringBody r with
      | some (s, t) => some ('\n' :: s, t)
      | none => none := rfl

/-- Parser step: escaped tab. -/
theorem psbEscT (r : List Char) :
    parseStringBody ('\\' :: 't' :: r) =
      match parseStringBody r with
      | some (s, t) => some ('\t' :: s, t)
      | none => none := rfl

/-- Parser step: escaped carriage return. -/
theorem psbEscR (r : List Char) :
    parseStringBody ('\\' :: 'r' :: r) =
      match parseStringBody r with
      | some (s, t) => some ('\r' :: s, t)
      | none => none := rfl

/-- Parser step: escaped backspace. -/
theorem psbEscB (r : List Char) :
    parseStringBody ('\\' :: 'b' :: r) =
      match parseStringBody r with
      | some (s, t) => some ('\x08' :: s, t)
      | none => none := rfl

/-- Parser step: escaped form feed. -/
theorem psbEscF (r : List Char) :
    parseStringBody ('\\' :: 'f' :: r) =
      match parseStringBody r with
      | some (s, t) => some ('\x0c' :: s, t)
      | none => none := rfl

/-- Parser step: `u`-escape with four digit characters. -/
theorem psbU (a b z d : Char) (r : List Char) :
    parseStringBody ('\\' :: 'u' :: a :: b :: z :: d :: r) =
      match decodeHexDigit a, decodeHexDigit b, decodeHexDigit z,
          decodeHexDigit d with
      | some x, some y, some v, some w =>
          (match parseStringBody r with
           | some (s, t) =>
               some (Char.ofNat (((x * 16 + y) * 16 + v) * 16 + w) :: s, t)
           | none => none)
      | _, _, _, _ => none := rfl

/-- Parser step: a literal (unescaped) character. -/
theorem psbPlain (c : Char) (r : List Char) (h1 : ¬ c = '"')
    (h2 : ¬ c = '\\') :
    parseStringBody (c :: r) =
      match parseStringBody r with
      | some (s, t) => some (c :: s, t)
      | none => none := by
  rw [parseStringBody.eq_def]
  dsimp only
  rw [if_neg h1, if_neg h2]

/-- String-body round trip: parsing the escaped form of a string up to
its closing quote recovers the string and the remaining input. -/
theorem parseStringBody_escape (s : List Char) (rest : List Char) :
    parseStringBody (escapeJsonString s ++ '"' :: rest) = some (s, rest) := by
  induction s with
  | nil =>
      rw [show escapeJsonString [] = [] from rfl, List.nil_append]
      exact psbQuote rest
  | cons c cs ih =>
      rw [escapeJsonString_cons, List.append_assoc]
      by_cases hq : c = '"'
      · subst hq
        rw [show escapeJsonChar '"' = ['\\', '"'] from by decide]
        simp only [List.cons_append, List.nil_append]
        rw [psbEscQuote, ih]
      · by_cases hb : c = '\\'
        · subst hb
          rw [show escapeJsonChar '\\' = ['\\', '\\'] from by decide]
          simp only [List.cons_append, List.nil_append]
          rw [psbEscBackslash, ih]
        · by_cases hn : c = '\n'
          · subst hn
            rw [show escapeJsonChar '\n' = ['\\', 'n'] from by decide]
            simp only [List.cons_append, List.nil_append]
            rw [psbEscN, ih]
          · by_cases ht : c = '\t'
            · subst ht
              rw [show escapeJsonChar '\t' = ['\\', 't'] from by decide]
              simp only [List.cons_append, List.nil_append]
              rw [psbEscT, ih]
            · by_cases hr : c = '\r'
              · subst hr
                rw [show escapeJsonChar '\r' = ['\\', 'r'] from by decide]
                simp only [List.cons_append, List.nil_append]
                rw [psbEscR, ih]
              · by_cases h8 : c = '\x08'
                · subst h8
                  rw [show escapeJsonChar '\x08' = ['\\', 'b'] from by decide]
                  simp only [List.cons_append, List.nil_append]
                  rw [psbEscB, ih]
                · by_cases hf : c = '\x0c'
                  · subst hf
                    rw [show escapeJsonChar '\x0c' = ['\\', 'f'] from by decide]
                    simp only [List.cons_append, List.nil_append]
                    rw [psbEscF, ih]
                  · by_cases hc : c.toNat < 0x20
                    · have he : escapeJsonChar c =
                          ['\\', 'u', '0', '0', hexDigit (c.toNat / 16),
                           hexDigit (c.toNat % 16)] := by
                        rw [escapeJsonChar, if_neg hq, if_neg hb, if_neg hn,
                          if_neg ht, if_neg hr, if_neg h8, if_neg hf,
                          if_pos hc]
                      rw [he]
                      simp only [List.cons_append, List.nil_append]
                      rw [psbU,
                        show decodeHexDigit '0' = some 0 from by decide,
                        decodeHexDigit_hexDigit (c.toNat / 16) (by omega),
                        decodeHexDigit_hexDigit (c.toNat % 16) (by omega)]
                      dsimp only
                      rw [ih]
                      have harith :
                          ((0 * 16 + 0) * 16 + c.toNat / 16) * 16 +
                              c.toNat % 16 = c.toNat := by
                        omega
                      rw [harith, Char.ofNat_toNat]
                    · have he : escapeJsonChar c = [c] := by
                        rw [escapeJsonChar, if_neg hq, if_neg hb, if_neg hn,
                          if_neg ht, if_neg hr, if_neg h8, if_neg hf,
                          if_neg hc]
                      rw [he]
                      simp only [List.cons_append, List.nil_append]
                      rw [psbPlain c _ hq hb, ih]

/-- The encoded record line in head-normal form: it starts with the
opening brace. -/
theorem encodeRecordLine_head (r : TrainRecord) :
    encodeRecordLine r =
      '\x7b' :: (("\"text\": \"" : String).data ++
        (escapeJsonString r.text.data ++
          (("\", \"label\": \"" : String).data ++
            (escapeJsonString r.label.data ++ ("\"\x7d" : String).data)))) := by
  rw [encodeRecordLine,
    show ("\x7b\"text\": \"" : String).data =
      '\x7b' :: ("\"text\": \"" : String).data from rfl]
  simp [List.append_assoc]

/-- Record round trip: `json.loads` of the line `json.dumps` writes for
a record recovers the record. -/
theorem parseRecordLine_encode (r : TrainRecord) :
    parseRecordLine (encodeRecordLine r) = some r := by
  have e2 : ∀ Y : List Char,
      ("\", \"label\": \"" : String).data ++ Y =
        '"' :: ((", \"label\": \"" : String).data ++ Y) := fun Y => rfl
  have e3 : ("\"\x7d" : String).data = '"' :: ['\x7d'] := rfl
  rw [parseRecordLine.eq_def, encodeRecordLine, List.append_assoc,
    List.append_assoc, List.append_assoc, e2, e3, parseExact_append]
  dsimp only
  rw [parseStringBody_escape]
  dsimp only
  rw [parseExact_append]
  dsimp only
  rw [parseStringBody_escape]
  rfl

/-- Claim C8: the training-record stream round-trips — reading the file
`prepare_dataset.main` writes with `load_dataset` succeeds and returns
the texts and labels of the written records, in order (so the two lists
have equal lengths and the i-th entries come from the i-th record). -/
theorem claim_C8 (records : List TrainRecord) :
    load_dataset (writeDatasetLines records) =
      some (records.map TrainRecord.text, records.map TrainRecord.label) := by
  induction records with
  | nil => rfl
  | cons r rs ih =>
      have hne : ¬ pyStrip (encodeRecordLine r) = [] := by
        rw [encodeRecordLine_head, pyStrip_cons_of_neg '\x7b' _ (by decide)]
        simp
      rw [show writeDatasetLines (r :: rs) =
        encodeRecordLine r :: writeDatasetLines rs from rfl]
      rw [load_dataset.eq_def]
      dsimp only
      rw [if_neg hne, parseRecordLine_encode]
      dsimp only
      rw [ih]
      rfl

end Sentinel
